import Mathlib

/-!
Verification of the diffeq-flow development file servers
(`server.py`, `server2.py`, `https-server.py`).

Paths and other Python strings are modelled as `List Char`; console text is
modelled as Lean `String`.  Fallible Python operations return `Option` or
`Except`, and the module-level scripts are modelled as functions from their
environment oracles (file existence, subprocess outcomes, the accept-loop
outcome) to the trace of observable events plus the process outcome.
-/

namespace DiffeqFlow

/-- ASCII case folding of a single character, as Python `str.lower` acts on
the ASCII range (extensions in this repository are ASCII). -/
def lowerChar (c : Char) : Char :=
  if 'A' ≤ c ∧ c ≤ 'Z' then Char.ofNat (c.toNat + 32) else c

/-- Python `str.lower` on an ASCII string. -/
def lowerList (s : List Char) : List Char :=
  s.map lowerChar

/-- Index of the last occurrence of `c` in `p`, `-1` when absent: the
behaviour of Python `str.rfind` used by `posixpath.splitext`. -/
def rfindIdx (p : List Char) (c : Char) : Int :=
  (List.range p.length).foldl
    (fun acc i => if p.get? i = some c then ((i : Nat) : Int) else acc) (-1)

/-- `os.path.splitext` (posix form), as in `genericpath._splitext`: split at
the last dot that lies after the last path separator, except that the dots
leading a file name (hidden files such as `.bashrc`) never start an
extension. -/
def splitext (p : List Char) : List Char × List Char :=
  let sepIndex := rfindIdx p '/'
  let dotIndex := rfindIdx p '.'
  if sepIndex < dotIndex then
    if (List.range p.length).any
        (fun i => decide (sepIndex + 1 ≤ (i : Int) ∧ (i : Int) < dotIndex ∧
          p.get? i ≠ some '.')) then
      (p.take dotIndex.toNat, p.drop dotIndex.toNat)
    else (p, [])
  else (p, [])

/-- The `JSHTTPRequestHandler.extensions_map` class attribute of
`server2.py`, in source order. -/
def extensions_map : List (List Char × List Char) :=
  [(".html".toList, "text/html".toList),
   (".js".toList, "application/javascript".toList),
   (".mjs".toList, "application/javascript".toList),
   (".json".toList, "application/json".toList),
   (".css".toList, "text/css".toList),
   (".png".toList, "image/png".toList),
   (".jpg".toList, "image/jpeg".toList),
   (".svg".toList, "image/svg+xml".toList),
   (".wasm".toList, "application/wasm".toList),
   ([], "application/octet-stream".toList)]

/-- Python `dict` lookup (`e in d`, `d[e]`) on an association list whose keys
are distinct; `none` models a missing key (a `KeyError` on subscript). -/
def lookupTable : List (List Char × List Char) → List Char → Option (List Char)
  | [], _ => none
  | (k, v) :: rest, e => if e = k then some v else lookupTable rest e

/-- `JSHTTPRequestHandler.guess_type` of `server2.py`: look the extension up
case-sensitively, then lowercased, then subscript the map at the empty
extension.  The result is an `Option` so that a hypothetical `KeyError` in
the final subscript would surface as `none`. -/
def guess_type (path : List Char) : Option (List Char) :=
  match lookupTable extensions_map (splitext path).2 with
  | some t => some t
  | none =>
    match lookupTable extensions_map (lowerList (splitext path).2) with
    | some t => some t
    | none => lookupTable extensions_map []

/-- ASCII whitespace stripped by Python `int(str)`. -/
def isPySpace (c : Char) : Bool :=
  c = ' ' ∨ c = '\t' ∨ c = '\n' ∨ c = '\x0d' ∨ c = '\x0b' ∨ c = '\x0c'

/-- Python `str.strip()` restricted to ASCII whitespace. -/
def pyStrip (s : List Char) : List Char :=
  ((s.dropWhile isPySpace).reverse.dropWhile isPySpace).reverse

/-- Decimal digit value of a character, if any. -/
def digitVal (c : Char) : Option Nat :=
  if '0' ≤ c ∧ c ≤ '9' then some (c.toNat - 48) else none

/-- Digits after the first one in a Python decimal literal: a single
underscore may separate two digits, nothing else is accepted. -/
def parseDigitsAux (acc : Nat) : List Char → Option Nat
  | [] => some acc
  | '_' :: c :: rest =>
    match digitVal c with
    | some d => parseDigitsAux (acc * 10 + d) rest
    | none => none
  | c :: rest =>
    match digitVal c with
    | some d => parseDigitsAux (acc * 10 + d) rest
    | none => none

/-- A nonempty run of decimal digits (with Python's underscore grouping);
must begin with a digit. -/
def parseUnsigned : List Char → Option Nat
  | [] => none
  | c :: rest =>
    match digitVal c with
    | some d => parseDigitsAux d rest
    | none => none

/-- Python `int(s)` for a decimal string: strip whitespace, optional sign,
nonempty digit run.  `none` models the `ValueError` raised otherwise. -/
def pyIntParse (s : List Char) : Option Int :=
  match pyStrip s with
  | '+' :: rest => (parseUnsigned rest).map (fun n => (n : Int))
  | '-' :: rest => (parseUnsigned rest).map (fun n => -(n : Int))
  | rest => (parseUnsigned rest).map (fun n => (n : Int))

/-- Observable events of a script run.  `bind` records a socket
creation-and-bind attempt together with the effective `allow_reuse_address`
flag; `runLsof`, `killPid` and `runFuser` record the Port Reclaimer's
external actions; `checkFiles` records the `os.path.exists` certificate
check of `https-server.py`. -/
inductive Event where
  | checkFiles
  | runLsof (port : Int)
  | killPid (pid : Int)
  | runFuser (port : Int)
  | printLine (s : String)
  | bind (port : Int) (reuseAddr : Bool)
  | loadCert
  | wrapSocket
  | serve
  deriving DecidableEq

/-- How the process run ends: `exited code` for `sys.exit`/normal script
completion, `raised e` for an uncaught exception named by its Python
class. -/
inductive Outcome where
  | exited (code : Nat)
  | raised (err : String)
  deriving DecidableEq

/-- Environment oracle for `kill_process_on_port`: `lsof = none` models
`subprocess.run(["lsof", ...])` itself raising (utility unavailable);
`lsof = some (rc, out)` gives the utility's exit code and stdout.
`killOk pid` tells whether `os.kill(pid, SIGTERM)` succeeds. -/
structure ReclaimOracle where
  lsof : Option (Int × List Char)
  killOk : Int → Bool

/-- Python `str.split(sep)` for a single-character separator. -/
def splitOnChar (sep : Char) : List Char → List (List Char)
  | [] => [[]]
  | c :: rest =>
    let r := splitOnChar sep rest
    if c = sep then [] :: r
    else
      match r with
      | [] => [[c]]
      | g :: gs => (c :: g) :: gs

/-- The `for pid in pids:` loop of `kill_process_on_port`: print the notice,
convert the pid with `int`, send SIGTERM.  Returns the events it emitted and
`Except.error` when `int` or `os.kill` raised (aborting the loop). -/
def killLoop (killOk : Int → Bool) (port : Int) :
    List (List Char) → List Event × Except String Unit
  | [] => ([], Except.ok ())
  | pid :: rest =>
    let pr := Event.printLine
      ("Killing existing process " ++ String.mk pid ++ " on port " ++ toString port)
    match pyIntParse pid with
    | none => ([pr], Except.error "ValueError")
    | some n =>
      if killOk n then
        let r := killLoop killOk port rest
        (pr :: Event.killPid n :: r.1, r.2)
      else ([pr, Event.killPid n], Except.error "ProcessLookupError")

/-- The body of the outer `try` of `kill_process_on_port`: run `lsof -ti`,
and when it exits 0 with nonempty stripped output, split the output on
newlines and SIGTERM each pid. -/
def lsofBody (o : ReclaimOracle) (port : Int) : List Event × Except String Unit :=
  match o.lsof with
  | none => ([Event.runLsof port], Except.error "FileNotFoundError")
  | some (rc, out) =>
    if rc = 0 ∧ pyStrip out ≠ [] then
      let r := killLoop o.killOk port (splitOnChar '\n' (pyStrip out))
      (Event.runLsof port :: r.1, r.2)
    else ([Event.runLsof port], Except.ok ())

/-- `kill_process_on_port` of `server.py`/`server2.py` (the two files define
it identically): the `lsof` phase runs under `try`, and on any exception the
handler attempts `fuser -k` under a bare `except: pass`, so the fallback
phase swallows every error. -/
def kill_process_on_port (o : ReclaimOracle) (port : Int) :
    List Event × Except String Unit :=
  match lsofBody o port with
  | (evs, Except.ok u) => (evs, Except.ok u)
  | (evs, Except.error _) => (evs ++ [Event.runFuser port], Except.ok ())

/-- Outcome of `serve_forever()`: a `KeyboardInterrupt` (the only exception
the scripts catch) or some other exception escaping the accept loop. -/
inductive ServeOutcome where
  | interrupted
  | failed (err : String)
  deriving DecidableEq

/-- The startup banner printed by `server.py`/`server2.py`. -/
def plainBanner (port : Int) : List Event :=
  [Event.printLine ("Server running at http://0.0.0.0:" ++ toString port ++ "/"),
   Event.printLine ("Access locally: http://localhost:" ++ toString port ++ "/"),
   Event.printLine "Press Ctrl+C to stop"]

/-- The module-level script of `server.py`/`server2.py` (identical lifecycle
code): `PORT = 8081` is a fixed constant and `sys.argv` is never read, so the
argument vector is ignored.  Reclaim the port, set
`allow_reuse_address = True`, create and bind the server (`bindOk` tells
whether the bind raised), print the banner, serve, and on
`KeyboardInterrupt` print the stop notice and finish normally (exit 0). -/
def plainMain (_argv : List (List Char)) (o : ReclaimOracle) (bindOk : Bool)
    (s : ServeOutcome) : List Event × Outcome :=
  let k := kill_process_on_port o 8081
  if bindOk then
    match s with
    | ServeOutcome.interrupted =>
      (k.1 ++ Event.bind 8081 true ::
        (plainBanner 8081 ++ [Event.serve, Event.printLine "\nServer stopped."]),
       Outcome.exited 0)
    | ServeOutcome.failed e =>
      (k.1 ++ Event.bind 8081 true :: (plainBanner 8081 ++ [Event.serve]),
       Outcome.raised e)
  else (k.1 ++ [Event.bind 8081 true], Outcome.raised "OSError")

/-- `PORT = 8443 if len(sys.argv) < 2 else int(sys.argv[1])` of
`https-server.py`; `none` models the `ValueError` from `int`. -/
def portOf (argv : List (List Char)) : Option Int :=
  if argv.length < 2 then some 8443
  else
    match argv.get? 1 with
    | some a => pyIntParse a
    | none => none

/-- The startup banner printed by `https-server.py`. -/
def httpsBanner (port : Int) (cwd : String) : List Event :=
  [Event.printLine ("🔒 HTTPS server running on https://localhost:" ++ toString port ++ "/"),
   Event.printLine ("📁 Serving files from: " ++ cwd),
   Event.printLine "⚠️  Using self-signed certificate - browser will show security warning",
   Event.printLine "   Accept the warning to continue (this is safe for local development)",
   Event.printLine "\nPress Ctrl+C to stop\n"]

/-- The module-level script of `https-server.py`, in source order: compute
`PORT` from `sys.argv` (a bad argument raises before anything else runs),
check `cert.pem`/`key.pem` exist and exit 1 after the diagnostic if not,
construct the `HTTPServer` (which binds; `http.server.HTTPServer` has
`allow_reuse_address = 1`, hence reuse is recorded as enabled), load the
certificate chain (`loadOk` tells whether `load_cert_chain` raised), wrap
the socket, print the banner, serve, and on `KeyboardInterrupt` print the
stop notice and `sys.exit(0)`. -/
def httpsMain (argv : List (List Char)) (certExists keyExists loadOk bindOk : Bool)
    (cwd : String) (s : ServeOutcome) : List Event × Outcome :=
  match portOf argv with
  | none => ([], Outcome.raised "ValueError")
  | some port =>
    if certExists && keyExists then
      if bindOk then
        if loadOk then
          let pre := Event.checkFiles :: Event.bind port true :: Event.loadCert ::
            Event.wrapSocket :: (httpsBanner port cwd ++ [Event.serve])
          match s with
          | ServeOutcome.interrupted =>
            (pre ++ [Event.printLine "\n\nServer stopped."], Outcome.exited 0)
          | ServeOutcome.failed e => (pre, Outcome.raised e)
        else
          ([Event.checkFiles, Event.bind port true, Event.loadCert],
           Outcome.raised "SSLError")
      else ([Event.checkFiles, Event.bind port true], Outcome.raised "OSError")
    else
      ([Event.checkFiles,
        Event.printLine "Error: cert.pem and key.pem not found!",
        Event.printLine "Generate them with:",
        Event.printLine "  openssl req -x509 -newkey rsa:4096 -keyout key.pem -out cert.pem -days 365 -nodes -subj \"/CN=localhost\""],
       Outcome.exited 1)

/-- `end_headers` as overridden identically in `MyHTTPRequestHandler`
(`server.py`) and `JSHTTPRequestHandler` (`server2.py`): append the CORS
header and the three cache-suppression headers to the pending header block,
then flush (`super().end_headers()`). -/
def end_headers (pending : List (String × String)) : List (String × String) :=
  pending ++
    [("Access-Control-Allow-Origin", "*"),
     ("Cache-Control", "no-cache, no-store, must-revalidate"),
     ("Pragma", "no-cache"),
     ("Expires", "0")]

/-- One request served by the handler: the platform static-file responder
(an oracle, since `SimpleHTTPRequestHandler` is external to this repository)
produces the status, the base headers and the body for the path; the
overridden `end_headers` finalises the header block. -/
def emitResponse (responder : List Char → Nat × List (String × String) × List Char)
    (path : List Char) : Nat × List (String × String) × List Char :=
  let r := responder path
  (r.1, end_headers r.2.1, r.2.2)

/-! ## Helper lemmas -/

theorem lookupTable_mem (t : List (List Char × List Char)) (e v : List Char)
    (h : lookupTable t e = some v) : (e, v) ∈ t := by
  induction t with
  | nil => simp [lookupTable] at h
  | cons kv rest ih =>
    obtain ⟨k, w⟩ := kv
    rw [lookupTable] at h
    by_cases he : e = k
    · subst he
      rw [if_pos rfl] at h
      injection h with h
      subst h
      exact List.mem_cons_self _ _
    · simp only [if_neg he] at h
      exact List.mem_cons_of_mem _ (ih h)

theorem guess_type_eq_of_first (p : List Char) (t : List Char)
    (hl : lookupTable extensions_map (splitext p).2 = some t) :
    guess_type p = some t := by
  unfold guess_type; rw [hl]

theorem guess_type_eq_of_none (p : List Char)
    (hl : lookupTable extensions_map (splitext p).2 = none) :
    guess_type p =
      match lookupTable extensions_map (lowerList (splitext p).2) with
      | some t => some t
      | none => lookupTable extensions_map [] := by
  unfold guess_type; rw [hl]

/-! ## Claim theorems -/

/-- Claim C1: for every path whose extension (in the sense of
`os.path.splitext`) case-folds to `.js` or `.mjs`, `guess_type` of
`server2.py` resolves to exactly `application/javascript`, whatever the case
of the extension. -/
theorem c1_js_mjs_javascript (p : List Char)
    (h : lowerList (splitext p).2 = ".js".toList ∨
         lowerList (splitext p).2 = ".mjs".toList) :
    guess_type p = some "application/javascript".toList := by
  cases hl : lookupTable extensions_map (splitext p).2 with
  | none =>
    rw [guess_type_eq_of_none p hl]
    rcases h with h | h <;> rw [h] <;> decide
  | some t =>
    rw [guess_type_eq_of_first p t hl]
    have hm := lookupTable_mem _ _ _ hl
    simp only [extensions_map, List.mem_cons, Prod.mk.injEq, List.not_mem_nil,
      or_false] at hm
    rcases hm with ⟨he, ht⟩ | ⟨he, ht⟩ | ⟨he, ht⟩ | ⟨he, ht⟩ | ⟨he, ht⟩ |
      ⟨he, ht⟩ | ⟨he, ht⟩ | ⟨he, ht⟩ | ⟨he, ht⟩ | ⟨he, ht⟩ <;>
      subst ht <;> rw [he] at h <;>
      first
        | rfl
        | exact absurd h (by decide)

/-- Witness for C1 at the concrete path `module.JS`. -/
theorem c1_witness :
    guess_type "module.JS".toList = some "application/javascript".toList :=
  c1_js_mjs_javascript ("module.JS".toList) (Or.inl (by decide))

/-- Claim C4: content-type resolution is total (`guess_type` always yields a
type), a path with no extension resolves to `application/octet-stream`, and
when both the case-sensitive and the case-folded lookups miss, resolution
falls back to `application/octet-stream` rather than failing. -/
theorem c4_resolution_total (p : List Char) :
    (guess_type p).isSome = true ∧
    ((splitext p).2 = [] →
      guess_type p = some "application/octet-stream".toList) ∧
    (lookupTable extensions_map (splitext p).2 = none →
      lookupTable extensions_map (lowerList (splitext p).2) = none →
      guess_type p = some "application/octet-stream".toList) := by
  refine ⟨?_, ?_, ?_⟩
  · cases hl : lookupTable extensions_map (splitext p).2 with
    | some t => rw [guess_type_eq_of_first p t hl]; rfl
    | none =>
      rw [guess_type_eq_of_none p hl]
      cases h2 : lookupTable extensions_map (lowerList (splitext p).2) with
      | some t => rfl
      | none => decide
  · intro he
    have hl : lookupTable extensions_map (splitext p).2 =
        some "application/octet-stream".toList := by rw [he]; decide
    exact guess_type_eq_of_first p _ hl
  · intro h1 h2
    rw [guess_type_eq_of_none p h1, h2]
    decide

/-- Witness for C4 at the extensionless concrete path `README`. -/
theorem c4_witness :
    guess_type "README".toList = some "application/octet-stream".toList :=
  (c4_resolution_total "README".toList).2.1 (by decide)

/-- Claim C2: every response emitted through the overridden `end_headers` —
whatever path was requested and whatever status and headers the static-file
responder chose, 404 included — carries `Access-Control-Allow-Origin: *`
and the three cache-suppression headers, and the override changes neither
the status nor the body. -/
theorem c2_header_policy
    (responder : List Char → Nat × List (String × String) × List Char)
    (path : List Char) :
    ("Access-Control-Allow-Origin", "*") ∈ (emitResponse responder path).2.1 ∧
    ("Cache-Control", "no-cache, no-store, must-revalidate") ∈
      (emitResponse responder path).2.1 ∧
    ("Pragma", "no-cache") ∈ (emitResponse responder path).2.1 ∧
    ("Expires", "0") ∈ (emitResponse responder path).2.1 ∧
    (emitResponse responder path).1 = (responder path).1 ∧
    (emitResponse responder path).2.2 = (responder path).2.2 := by
  refine ⟨?_, ?_, ?_, ?_, rfl, rfl⟩ <;> simp [emitResponse, end_headers]

/-- Claim C3: whenever `cert.pem` or `key.pem` is absent at startup of the
TLS variant, the process exits with status 1, no bind event ever appears in
the trace, and the diagnostic names both expected files and prints the
example `openssl` generation command. -/
theorem c3_missing_cert_fail_fast (argv : List (List Char)) (port : Int)
    (hport : portOf argv = some port) (certExists keyExists : Bool)
    (h : ¬(certExists = true ∧ keyExists = true))
    (loadOk bindOk : Bool) (cwd : String) (s : ServeOutcome) :
    (httpsMain argv certExists keyExists loadOk bindOk cwd s).2 =
      Outcome.exited 1 ∧
    (∀ q b, Event.bind q b ∉ (httpsMain argv certExists keyExists loadOk bindOk cwd s).1) ∧
    (∃ msg, Event.printLine msg ∈
        (httpsMain argv certExists keyExists loadOk bindOk cwd s).1 ∧
      "cert.pem".toList <:+: msg.toList ∧
      "key.pem".toList <:+: msg.toList) ∧
    Event.printLine "Generate them with:" ∈
      (httpsMain argv certExists keyExists loadOk bindOk cwd s).1 ∧
    Event.printLine "  openssl req -x509 -newkey rsa:4096 -keyout key.pem -out cert.pem -days 365 -nodes -subj \"/CN=localhost\"" ∈
      (httpsMain argv certExists keyExists loadOk bindOk cwd s).1 := by
  have hrun : httpsMain argv certExists keyExists loadOk bindOk cwd s =
      ([Event.checkFiles,
        Event.printLine "Error: cert.pem and key.pem not found!",
        Event.printLine "Generate them with:",
        Event.printLine "  openssl req -x509 -newkey rsa:4096 -keyout key.pem -out cert.pem -days 365 -nodes -subj \"/CN=localhost\""],
       Outcome.exited 1) := by
    cases certExists <;> cases keyExists <;>
      first
        | (unfold httpsMain; rw [hport]; rfl)
        | exact absurd ⟨rfl, rfl⟩ h
  rw [hrun]
  refine ⟨rfl, ?_, ⟨"Error: cert.pem and key.pem not found!", by simp, by decide,
    by decide⟩, by simp, by simp⟩
  intro q b hq
  simp at hq

/-- Witness for C3: with `cert.pem` absent, the run exits with status 1. -/
theorem c3_witness :
    (httpsMain ["https-server.py".toList] false true true true "/srv"
      ServeOutcome.interrupted).2 = Outcome.exited 1 :=
  (c3_missing_cert_fail_fast ["https-server.py".toList] 8443 (by decide)
    false true (by simp) true true "/srv" ServeOutcome.interrupted).1

/-- Claim C9: when both certificate files exist but `load_cert_chain`
fails, the failure comes strictly after server construction and bind: the
run raises, and its trace is exactly the certificate check, then the bind,
then the certificate-load attempt. -/
theorem c9_load_failure_after_bind (argv : List (List Char)) (port : Int)
    (hport : portOf argv = some port) (cwd : String) (s : ServeOutcome) :
    httpsMain argv true true false true cwd s =
      ([Event.checkFiles, Event.bind port true, Event.loadCert],
       Outcome.raised "SSLError") := by
  unfold httpsMain
  rw [hport]
  rfl

/-- Witness for C9 at the default port. -/
theorem c9_witness :
    httpsMain ["https-server.py".toList] true true false true "/srv"
        ServeOutcome.interrupted =
      ([Event.checkFiles, Event.bind 8443 true, Event.loadCert],
       Outcome.raised "SSLError") :=
  c9_load_failure_after_bind ["https-server.py".toList] 8443 (by decide)
    "/srv" ServeOutcome.interrupted

/-- Claim C10: a present but non-decimal positional port argument makes the
TLS variant raise from integer parsing before anything else happens: the
trace is empty (no certificate check, no diagnostic, no bind) and the
outcome is the unhandled `ValueError`. -/
theorem c10_bad_port_argument (argv : List (List Char)) (s : List Char)
    (h1 : argv.get? 1 = some s) (h2 : pyIntParse s = none)
    (certExists keyExists loadOk bindOk : Bool) (cwd : String)
    (sv : ServeOutcome) :
    httpsMain argv certExists keyExists loadOk bindOk cwd sv =
      ([], Outcome.raised "ValueError") := by
  have hlen : ¬ argv.length < 2 := by
    intro hl
    rw [List.get?_eq_none.mpr (by omega)] at h1
    exact Option.noConfusion h1
  have hport : portOf argv = none := by
    unfold portOf
    rw [if_neg hlen, h1]
    exact h2
  unfold httpsMain
  rw [hport]

/-- Witness for C10 at the concrete argument `eighty`. -/
theorem c10_witness :
    httpsMain ["https-server.py".toList, "eighty".toList] false false true
        true "/srv" ServeOutcome.interrupted =
      ([], Outcome.raised "ValueError") :=
  c10_bad_port_argument ["https-server.py".toList, "eighty".toList]
    ("eighty".toList) (by decide) (by decide) false false true true "/srv"
    ServeOutcome.interrupted

theorem killLoop_no_bind (killOk : Int → Bool) (port : Int)
    (pids : List (List Char)) (q : Int) (b : Bool) :
    Event.bind q b ∉ (killLoop killOk port pids).1 := by
  induction pids with
  | nil => simp [killLoop]
  | cons pid rest ih =>
    unfold killLoop
    cases hp : pyIntParse pid with
    | none => simp
    | some n =>
      by_cases hk : killOk n
      · simp only [hk, if_true, List.mem_cons]
        intro hq
        rcases hq with hq | hq | hq
        · exact Event.noConfusion hq
        · exact Event.noConfusion hq
        · exact ih hq
      · simp [hk]

theorem lsofBody_no_bind (o : ReclaimOracle) (port : Int) (q : Int) (b : Bool) :
    Event.bind q b ∉ (lsofBody o port).1 := by
  unfold lsofBody
  split
  · simp
  · split
    · intro hq
      rcases List.mem_cons.mp hq with hq | hq
      · exact Event.noConfusion hq
      · exact killLoop_no_bind _ _ _ _ _ hq
    · simp

theorem kill_process_on_port_no_bind (o : ReclaimOracle) (port : Int)
    (q : Int) (b : Bool) :
    Event.bind q b ∉ (kill_process_on_port o port).1 := by
  have hb := lsofBody_no_bind o port q b
  unfold kill_process_on_port
  cases hres : lsofBody o port with
  | mk evs r =>
    rw [hres] at hb
    cases r with
    | ok u => simpa using hb
    | error e =>
      simp only [List.mem_append, List.mem_singleton]
      intro hq
      rcases hq with hq | hq
      · exact hb hq
      · exact Event.noConfusion hq

theorem lsofBody_starts_lsof (o : ReclaimOracle) (port : Int) :
    (lsofBody o port).1.head? = some (Event.runLsof port) := by
  unfold lsofBody
  split
  · rfl
  · split
    · rfl
    · rfl

theorem kill_process_on_port_starts_lsof (o : ReclaimOracle) (port : Int) :
    (kill_process_on_port o port).1.head? = some (Event.runLsof port) := by
  have h := lsofBody_starts_lsof o port
  unfold kill_process_on_port
  cases hres : lsofBody o port with
  | mk evs r =>
    rw [hres] at h
    cases r with
    | ok u => exact h
    | error e =>
      cases evs with
      | nil => exact absurd h (by simp)
      | cons a as => simpa using h

/-- Claim C5 (amended): in the plain variants the Port Reclaimer runs
(starting with the `lsof` lookup) strictly before the listening socket is
created and bound, and the bind carries `allow_reuse_address = True`; the
TLS variant, by contrast, binds with address reuse (the platform default for
`HTTPServer`) but performs no reclamation step at all. -/
theorem c5_plain_reclaim_before_bind (argv : List (List Char))
    (o : ReclaimOracle) (bindOk : Bool) (s : ServeOutcome) :
    (∃ rest, (plainMain argv o bindOk s).1 =
      (kill_process_on_port o 8081).1 ++ Event.bind 8081 true :: rest) ∧
    (∀ q b, Event.bind q b ∉ (kill_process_on_port o 8081).1) ∧
    (kill_process_on_port o 8081).1.head? = some (Event.runLsof 8081) ∧
    (∀ ce ke lo bo cwd s2 q,
      Event.runLsof q ∉ (httpsMain argv ce ke lo bo cwd s2).1 ∧
      Event.runFuser q ∉ (httpsMain argv ce ke lo bo cwd s2).1) := by
  refine ⟨?_, fun q b => kill_process_on_port_no_bind o 8081 q b,
    kill_process_on_port_starts_lsof o 8081, ?_⟩
  · cases bindOk <;> cases s <;> exact ⟨_, rfl⟩
  · intro ce ke lo bo cwd s2 q
    unfold httpsMain
    cases portOf argv with
    | none => simp
    | some port =>
      cases ce <;> cases ke <;> cases lo <;> cases bo <;> cases s2 <;>
        constructor <;> intro hq <;> simp [httpsBanner] at hq

/-- Counterexample to C5 as stated: a TLS-variant run binds its socket with
no reclamation event (`lsof` lookup or `fuser` kill) anywhere in its
trace. -/
theorem c5_counterexample :
    Event.bind 8443 true ∈ (httpsMain ["https-server.py".toList] true true
      true true "/srv" ServeOutcome.interrupted).1 ∧
    Event.runLsof 8443 ∉ (httpsMain ["https-server.py".toList] true true
      true true "/srv" ServeOutcome.interrupted).1 ∧
    Event.runFuser 8443 ∉ (httpsMain ["https-server.py".toList] true true
      true true "/srv" ServeOutcome.interrupted).1 := by
  refine ⟨?_, ?_, ?_⟩ <;> simp [httpsMain, httpsBanner, portOf]

/-- Witness for the amended C5 on a concrete oracle: the reclaim lookup
leads the trace and the bind follows it. -/
theorem c5_witness :
    (kill_process_on_port ⟨some (1, []), fun _ => true⟩ 8081).1.head? =
      some (Event.runLsof 8081) :=
  (c5_plain_reclaim_before_bind [] ⟨some (1, []), fun _ => true⟩ true
    ServeOutcome.interrupted).2.2.1

/-- Claim C6: port reclamation never raises to its caller — for every
oracle outcome (lsof unavailable, lsof failure, int-parse failure, kill
failure, fuser failure) `kill_process_on_port` returns normally; when the
`lsof` phase raises, the `fuser` kill-by-port fallback is attempted; and the
caller always proceeds to the bind attempt. -/
theorem c6_reclaim_never_raises (o : ReclaimOracle) (port : Int) :
    (kill_process_on_port o port).2 = Except.ok () ∧
    (o.lsof = none → Event.runFuser port ∈ (kill_process_on_port o port).1) ∧
    (∀ argv bindOk s, ∃ rest,
      (plainMain argv o bindOk s).1 =
        (kill_process_on_port o 8081).1 ++ Event.bind 8081 true :: rest) := by
  refine ⟨?_, ?_, ?_⟩
  · unfold kill_process_on_port
    cases hres : lsofBody o port with
    | mk evs r => cases r with
      | ok u => rfl
      | error e => rfl
  · intro hn
    unfold kill_process_on_port lsofBody
    rw [hn]
    simp
  · intro argv bindOk s
    cases bindOk <;> cases s <;> exact ⟨_, rfl⟩

/-- Witness for C6 with `lsof` unavailable: the call still returns normally
and the `fuser` fallback was attempted. -/
theorem c6_witness :
    (kill_process_on_port ⟨none, fun _ => true⟩ 8081).2 = Except.ok () ∧
    Event.runFuser 8081 ∈ (kill_process_on_port ⟨none, fun _ => true⟩ 8081).1 :=
  ⟨(c6_reclaim_never_raises ⟨none, fun _ => true⟩ 8081).1,
   (c6_reclaim_never_raises ⟨none, fun _ => true⟩ 8081).2.1 rfl⟩

/-- Counterexample to C7 as stated: the plain variant started with a
positional argument `9000` still binds port 8081 — the argument does not
override the plain variants' port. -/
theorem c7_counterexample :
    Event.bind 9000 true ∉ (plainMain ["server.py".toList, "9000".toList]
      ⟨some (1, []), fun _ => true⟩ true ServeOutcome.interrupted).1 ∧
    Event.bind 8081 true ∈ (plainMain ["server.py".toList, "9000".toList]
      ⟨some (1, []), fun _ => true⟩ true ServeOutcome.interrupted).1 := by
  constructor <;>
    simp [plainMain, plainBanner, kill_process_on_port, lsofBody, pyStrip]

/-- Claim C7 (amended): only the TLS variant accepts the optional positional
port argument (default 8443, overridden by a parsable argument); the plain
variants always bind the fixed port 8081 whatever the argument vector. -/
theorem c7_port_defaults :
    (∀ argv (o : ReclaimOracle) (bindOk : Bool) (s : ServeOutcome)
      (q : Int) (b : Bool),
      Event.bind q b ∈ (plainMain argv o bindOk s).1 → q = 8081 ∧ b = true) ∧
    (∀ argv, argv.length < 2 → portOf argv = some 8443) ∧
    (∀ argv a n, argv.get? 1 = some a → pyIntParse a = some n →
      portOf argv = some n) := by
  refine ⟨?_, ?_, ?_⟩
  · intro argv o bindOk s q b hq
    have hk := kill_process_on_port_no_bind o 8081 q b
    cases bindOk <;> cases s <;>
      simp [plainMain, plainBanner] at hq <;>
      rcases hq with hq | hq <;>
      first
        | exact absurd hq hk
        | exact ⟨hq.1, by simp [hq.2]⟩
  · intro argv hl
    unfold portOf
    rw [if_pos hl]
  · intro argv a n h1 h2
    have hlen : ¬ argv.length < 2 := by
      intro hl
      rw [List.get?_eq_none.mpr (by omega)] at h1
      exact Option.noConfusion h1
    unfold portOf
    rw [if_neg hlen, h1]
    exact h2

/-- Witness for the amended C7: the TLS default and a parsed override at
concrete argument vectors. -/
theorem c7_witness :
    portOf ["https-server.py".toList, "9000".toList] = some 9000 ∧
    portOf ["server.py".toList] = some 8443 :=
  ⟨c7_port_defaults.2.2 ["https-server.py".toList, "9000".toList]
      ("9000".toList) 9000 (by decide) (by decide),
   c7_port_defaults.2.1 ["server.py".toList] (by decide)⟩

/-- Claim C8: in every variant an interrupt during serving is the clean
termination path — the run ends with exit status 0 and the only output
after the accept loop is the benign stop notice. -/
theorem c8_interrupt_clean_shutdown (argv : List (List Char))
    (o : ReclaimOracle) (cwd : String) (port : Int)
    (hport : portOf argv = some port) :
    (plainMain argv o true ServeOutcome.interrupted).2 = Outcome.exited 0 ∧
    (∃ pre, (plainMain argv o true ServeOutcome.interrupted).1 =
      pre ++ [Event.serve, Event.printLine "\nServer stopped."]) ∧
    (httpsMain argv true true true true cwd ServeOutcome.interrupted).2 =
      Outcome.exited 0 ∧
    (∃ pre, (httpsMain argv true true true true cwd
        ServeOutcome.interrupted).1 =
      pre ++ [Event.serve, Event.printLine "\n\nServer stopped."]) := by
  refine ⟨rfl, ?_, ?_, ?_⟩
  · refine ⟨(kill_process_on_port o 8081).1 ++
      Event.bind 8081 true :: plainBanner 8081, ?_⟩
    simp [plainMain, plainBanner]
  · unfold httpsMain
    rw [hport]
    rfl
  · refine ⟨Event.checkFiles :: Event.bind port true :: Event.loadCert ::
      Event.wrapSocket :: httpsBanner port cwd, ?_⟩
    unfold httpsMain
    rw [hport]
    simp [httpsBanner]

/-- Witness for C8 on concrete runs of both variants. -/
theorem c8_witness :
    (plainMain ["server.py".toList] ⟨some (1, []), fun _ => true⟩ true
      ServeOutcome.interrupted).2 = Outcome.exited 0 ∧
    (httpsMain ["https-server.py".toList] true true true true "/srv"
      ServeOutcome.interrupted).2 = Outcome.exited 0 :=
  ⟨(c8_interrupt_clean_shutdown ["server.py".toList]
      ⟨some (1, []), fun _ => true⟩ "/srv" 8443 (by decide)).1,
   (c8_interrupt_clean_shutdown ["https-server.py".toList]
      ⟨some (1, []), fun _ => true⟩ "/srv" 8443 (by decide)).2.2.1⟩

end DiffeqFlow
